import Mathlib

/-!
Shallow embedding of `be/src/pipeline/exec/spill_sort_sink_operator.cpp`
(Apache Doris, spill-aware sort sink operator).

The pipeline-thread entry points (`sink`, `revoke_memory`,
`revocable_mem_size`) and the background spill job (the closure submitted
to the spill IO thread pool, including its `Defer` cleanup) are modelled as
pure transition functions over an explicit state record.  Results of calls
into external collaborators (the in-memory Sorter delegate, the Spill
Stream Manager, the thread pool) are inputs to the transition functions,
collected in an `Ext` record, so every failure path of the source can be
driven explicitly.
-/

namespace SpillSortSink

/-- Result type mirroring `doris::Status`: `ok`, or an error with a code. -/
inductive Status where
  | ok : Status
  | err : Nat → Status
deriving DecidableEq, Repr

/-- `Status::ok()` check. -/
def Status.isOk : Status → Bool
  | .ok => true
  | .err _ => false

/-- A row batch (`vectorized::Block`); only its row count matters here. -/
structure Block where
  rows : Nat
deriving DecidableEq, Repr

/-- Observable state of the in-memory sort delegate (`_sort_sink_operator`
plus its `sorter`): the list of `sink` calls it received (row count and the
eos flag passed to it), and whether `prepare_for_read`, `prepare_for_spill`
and `reset` have been invoked on it. -/
structure Sorter where
  received : List (Nat × Bool) := []
  prepared_for_read : Bool := false
  prepared_for_spill : Bool := false
  was_reset : Bool := false
deriving DecidableEq, Repr

/-- Combined state of one `SpillSortSinkLocalState` instance together with
its `SpillSortSharedState` and the gates visible to the scheduler.

Shared-state fields: `sink_status`, `sorted_streams` (run ids, in spill
order), `spill_block_batch_row_count`, `enable_spill`.
Local fields: `is_spilling`, `eos`, `spilling_stream` (the in-flight run
handle), counters.
Gate fields: `dep_blocked` models `_dependency` (`block` /
`Dependency::set_ready`), `ready_to_read` models `set_ready_to_read`,
`finish_blocked` models `_finish_dependency`, `notified` models
`_spill_cv.notify_one`.
Bookkeeping: `end_spill_log` records every `end_spill(status)` call on a
stream, `batches_written` counts `spill_block` appends, `next_stream_id`
numbers runs created by `register_spill_stream`. -/
structure SinkState where
  sink_status : Status := .ok
  sorted_streams : List Nat := []
  spill_block_batch_row_count : Nat := 0
  enable_spill : Bool
  is_spilling : Bool := false
  eos : Bool := false
  spilling_stream : Option Nat := none
  dep_blocked : Bool := false
  ready_to_read : Bool := false
  finish_blocked : Bool
  notified : Bool := false
  rows_input_counter : Nat := 0
  mem_consumption : Nat := 0
  sorter : Sorter := {}
  end_spill_log : List (Nat × Status) := []
  batches_written : Nat := 0
  next_stream_id : Nat := 0
deriving DecidableEq, Repr

/-- Results of the external-collaborator calls a single pipeline-thread
entry may make: the delegate `sink`, the delegate `prepare_for_read`,
`register_spill_stream`, `prepare_spill`, `submit_func`, the delegate's
`get_revocable_mem_size` and `data_size`. -/
structure Ext where
  sorterSinkRes : Status := .ok
  prepareForReadRes : Status := .ok
  registerRes : Status := .ok
  prepareSpillRes : Status := .ok
  submitRes : Status := .ok
  revocableSize : Nat := 0
  dataSize : Nat := 0
deriving DecidableEq, Repr

/-- The sentinel returned by `revocable_mem_size` on a failed status. -/
def UINT64_MAX : Nat := 2 ^ 64 - 1

/-- State after `SpillSortSinkLocalState::init` (lines 30-47): fields at
their defaults, `enable_spill` copied from the parent, and the finish
dependency blocked exactly when spill is enabled. -/
def initState (enable : Bool) : SinkState :=
  { enable_spill := enable, finish_blocked := enable }

/-- `SpillSortSinkOperatorX::revocable_mem_size` (lines 151-160): 0 when
spill is disabled, `UINT64_MAX` when the shared status carries a failure,
otherwise the delegate's revocable-memory estimate. -/
def revocable_mem_size (ext : Ext) (st : SinkState) : Nat :=
  if st.enable_spill = false then 0
  else if st.sink_status.isOk = false then UINT64_MAX
  else ext.revocableSize

/-- Modelled from the spec: `SpillSortSharedState::
update_spill_block_batch_row_count` is declared outside this file; per the
spec the batch granularity is "derived from the first non-empty input
batch", so it is fixed once, from the first non-empty batch seen. -/
def update_spill_block_batch_row_count (b : Block) (st : SinkState) : SinkState :=
  if st.spill_block_batch_row_count = 0 then
    { st with spill_block_batch_row_count := b.rows }
  else st

/-- Modelled from the spec: `SpillSortSharedState::clear` is declared
outside this file; per the spec a failed spill "clears all shared spill
state (drop all accumulated runs)". -/
def sharedClear (st : SinkState) : SinkState :=
  { st with sorted_streams := [] }

/-- Modelled from the spec: `SpillStream::end_spill(status)` is the run
handle's `finalize(final_status)` (an explicit end-marker passing through
the final status); recorded here as an event in `end_spill_log`. -/
def endSpill (id : Nat) (s : Status) (st : SinkState) : SinkState :=
  { st with end_spill_log := st.end_spill_log ++ [(id, s)] }

/-- Successful `register_spill_stream` (lines 197-200): creates a fresh run
handle and stores it in `_spilling_stream`. -/
def register_spill_stream (st : SinkState) : Nat × SinkState :=
  let id := st.next_stream_id
  (id, { st with next_stream_id := id + 1, spilling_stream := some id })

/-- Synchronous part of `SpillSortSinkLocalState::revoke_memory` up to and
including the gate block (lines 189-216): set `_is_spilling`, propagate a
latched failure, register the stream, `prepare_spill`, append the run to
`sorted_streams`, and block the dependency when not eos. -/
def revoke_setup (ext : Ext) (st : SinkState) : Status × SinkState :=
  let st := { st with is_spilling := true }
  match st.sink_status with
  | .err e => (.err e, st)
  | .ok =>
    match ext.registerRes with
    | .err e => (.err e, st)
    | .ok =>
      let p := register_spill_stream st
      let id := p.1
      let st := p.2
      match ext.prepareSpillRes with
      | .err e => (.err e, st)
      | .ok =>
        let st := { st with sorted_streams := st.sorted_streams ++ [id] }
        let st := if st.eos = false then { st with dep_blocked := true } else st
        (.ok, st)

/-- `SpillSortSinkLocalState::revoke_memory` (lines 189-291): the setup
above, then `submit_func`; on synchronous submission failure (lines
282-289) reset `_is_spilling`, `end_spill` the stream with the failure,
and re-arm the dependency when not eos. On success the background job is
pending (modelled separately by `spillJob`). -/
def revoke_memory (ext : Ext) (st : SinkState) : Status × SinkState :=
  match revoke_setup ext st with
  | (.ok, st) =>
    match ext.submitRes with
    | .err e =>
      let st := { st with is_spilling := false }
      let st :=
        match st.spilling_stream with
        | some id => endSpill id (.err e) st
        | none => st
      let st := if st.eos = false then { st with dep_blocked := false } else st
      (.err e, st)
    | .ok => (.ok, st)
  | (.err e, st) => (.err e, st)

/-- `SpillSortSinkOperatorX::revoke_memory` (lines 144-150): no-op success
when spill is disabled, otherwise delegate to the local state. -/
def operator_revoke_memory (ext : Ext) (st : SinkState) : Status × SinkState :=
  if st.enable_spill = false then (.ok, st)
  else revoke_memory ext st

/-- Outcome of one iteration of the background drain loop (lines 261-277):
`merge_sort_read_for_spill` fails, or it succeeds and `spill_block` fails,
or both succeed with the delegate's eos flag still false, or both succeed
with eos true (last batch). -/
inductive DrainRes where
  | readFail : Nat → DrainRes
  | writeFail : Nat → DrainRes
  | more : DrainRes
  | last : DrainRes
deriving DecidableEq, Repr

/-- One successful `spill_block` append. -/
def writeBatch (st : SinkState) : SinkState :=
  { st with batches_written := st.batches_written + 1 }

/-- The drain loop of the background job (lines 259-277): while the
delegate has not reported eos and the query is not cancelled, read one
merged batch and append it to the stream, latching each step's status in
`sink_status` and stopping on the first failure. -/
def drainLoop (steps : List DrainRes) (cancelled : Bool) (st : SinkState) : SinkState :=
  match steps with
  | [] => st
  | s :: rest =>
    if cancelled then st
    else
      match s with
      | .readFail e => { st with sink_status := .err e }
      | .writeFail e => { st with sink_status := .err e }
      | .more => drainLoop rest cancelled (writeBatch { st with sink_status := .ok })
      | .last => writeBatch { st with sink_status := .ok }

/-- Body of the closure submitted to the spill IO thread pool (lines
252-280, before the `Defer` runs): `prepare_for_spill` on the delegate
(its result latched in `sink_status`, returning early on failure), then
the drain loop, then `reset` on the delegate when the loop exited without
a latched failure. -/
def spillJobBody (prepRes : Status) (steps : List DrainRes) (cancelled : Bool)
    (st : SinkState) : SinkState :=
  let st := { st with sorter := { st.sorter with prepared_for_spill := true },
                      sink_status := prepRes }
  match prepRes with
  | .err _ => st
  | .ok =>
    let st := drainLoop steps cancelled st
    match st.sink_status with
    | .ok => { st with sorter := { st.sorter with was_reset := true } }
    | .err _ => st

/-- The `Defer` cleanup of the background job (lines 223-250): `end_spill`
the stream with the final status; on failure clear the shared state; under
the lock release the stream handle and `_is_spilling`; when eos mark the
read side ready and release the finish gate, otherwise re-arm the
dependency; finally notify the condition variable. -/
def spillJobCleanup (st : SinkState) : SinkState :=
  let st :=
    match st.spilling_stream with
    | some id => endSpill id st.sink_status st
    | none => st
  let st := if st.sink_status.isOk = false then sharedClear st else st
  let st := { st with spilling_stream := none, is_spilling := false }
  let st :=
    if st.eos then { st with ready_to_read := true, finish_blocked := false }
    else { st with dep_blocked := false }
  { st with notified := true }

/-- The full background spill job: body then `Defer` cleanup (the cleanup
runs on every exit path of the body). -/
def spillJob (prepRes : Status) (steps : List DrainRes) (cancelled : Bool)
    (st : SinkState) : SinkState :=
  spillJobCleanup (spillJobBody prepRes steps cancelled st)

/-- Ingestion effects of `SpillSortSinkOperatorX::sink` (lines 166-171):
update the rows-input counter, fix the batch granularity from the first
non-empty batch, record the eos argument in `_eos`, and forward the batch
to the delegate with the delegate's eos flag hard-coded to `false`. -/
def sinkIngest (b : Block) (eosArg : Bool) (st : SinkState) : SinkState :=
  let st := { st with rows_input_counter := st.rows_input_counter + b.rows }
  let st := if 0 < b.rows then update_spill_block_batch_row_count b st else st
  let st := { st with eos := eosArg }
  { st with sorter := { st.sorter with received := st.sorter.received ++ [(b.rows, false)] } }

/-- `SpillSortSinkOperatorX::sink` (lines 161-188): short-circuit on a
latched failure; ingest; propagate a delegate `sink` failure; update the
memory-consumption counter; on eos either trigger `revoke_memory` (spill
enabled, revocable memory non-zero), mark the read side ready (spill
enabled, revocable memory zero), or `prepare_for_read` then mark the read
side ready (spill disabled). -/
def sink (b : Block) (eosArg : Bool) (ext : Ext) (st : SinkState) : Status × SinkState :=
  match st.sink_status with
  | .err e => (.err e, st)
  | .ok =>
    let st := sinkIngest b eosArg st
    match ext.sorterSinkRes with
    | .err e => (.err e, st)
    | .ok =>
      let st := { st with mem_consumption := ext.dataSize }
      if eosArg then
        if st.enable_spill then
          if 0 < revocable_mem_size ext st then operator_revoke_memory ext st
          else (.ok, { st with ready_to_read := true })
        else
          let st := { st with sorter := { st.sorter with prepared_for_read := true } }
          match ext.prepareForReadRes with
          | .err e => (.err e, st)
          | .ok => (.ok, { st with ready_to_read := true })
      else (.ok, st)

/-- A serialized sequence of `sink` calls, each with its own batch, eos
argument and collaborator outcomes; returns the final state. -/
def runSink (calls : List (Block × Bool × Ext)) (st : SinkState) : SinkState :=
  match calls with
  | [] => st
  | c :: rest => runSink rest (sink c.1 c.2.1 c.2.2 st).2

/-- A concrete state with one spill in flight: one 5-row batch ingested,
then a non-eos `revoke_memory` that registered run 0, appended it to the
run list, blocked the dependency and submitted the background job. -/
def spillingState : SinkState :=
  (revoke_memory { revocableSize := 10 } (sink ⟨5⟩ false {} (initState true)).2).2

/-- A concrete state whose shared status carries a latched failure. -/
def failedState : SinkState :=
  { initState true with sink_status := .err 5 }

/-! ## Helper lemmas -/

/-- The drain loop only writes `sink_status` and `batches_written`. -/
theorem drainLoop_shape (steps : List DrainRes) (cancelled : Bool) (st : SinkState) :
    ∃ s n, drainLoop steps cancelled st =
      { st with sink_status := s, batches_written := n } := by
  induction steps generalizing st with
  | nil => exact ⟨st.sink_status, st.batches_written, rfl⟩
  | cons d rest ih =>
    cases cancelled with
    | true => exact ⟨st.sink_status, st.batches_written, rfl⟩
    | false =>
      cases d with
      | readFail e => exact ⟨.err e, st.batches_written, rfl⟩
      | writeFail e => exact ⟨.err e, st.batches_written, rfl⟩
      | more =>
        obtain ⟨s, n, h⟩ := ih (writeBatch { st with sink_status := Status.ok })
        exact ⟨s, n, h⟩
      | last => exact ⟨.ok, st.batches_written + 1, rfl⟩

/-- The background job body only writes `sink_status`, `batches_written`
and the delegate flags `prepared_for_spill` / `was_reset`. -/
theorem spillJobBody_shape (prepRes : Status) (steps : List DrainRes) (cancelled : Bool)
    (st : SinkState) :
    ∃ s n r, spillJobBody prepRes steps cancelled st =
      { st with sink_status := s, batches_written := n,
                sorter := { st.sorter with prepared_for_spill := true, was_reset := r } } := by
  cases prepRes with
  | err e => exact ⟨.err e, st.batches_written, st.sorter.was_reset, rfl⟩
  | ok =>
    obtain ⟨s, n, h⟩ := drainLoop_shape steps cancelled
      { st with sorter := { st.sorter with prepared_for_spill := true }, sink_status := .ok }
    cases s with
    | ok =>
      refine ⟨.ok, n, true, ?_⟩
      simp only [spillJobBody]
      rw [h]
    | err e =>
      refine ⟨.err e, n, st.sorter.was_reset, ?_⟩
      simp only [spillJobBody]
      rw [h]

/-- The synchronous spill setup never writes `eos`, the sorter delegate,
`sink_status` or the `end_spill` log. -/
theorem revoke_setup_preserves (ext : Ext) (st : SinkState) :
    (revoke_setup ext st).2.eos = st.eos ∧
    (revoke_setup ext st).2.sorter = st.sorter ∧
    (revoke_setup ext st).2.sink_status = st.sink_status ∧
    (revoke_setup ext st).2.end_spill_log = st.end_spill_log := by
  unfold revoke_setup register_spill_stream
  cases hss : st.sink_status <;> cases hr : ext.registerRes <;>
    cases hp : ext.prepareSpillRes <;> simp <;> split <;> simp

/-- The pipeline-thread part of `revoke_memory` never writes `eos` or the
sorter delegate. -/
theorem revoke_memory_preserves (ext : Ext) (st : SinkState) :
    (revoke_memory ext st).2.eos = st.eos ∧
    (revoke_memory ext st).2.sorter = st.sorter := by
  have hp := revoke_setup_preserves ext st
  unfold revoke_memory
  rcases h : revoke_setup ext st with ⟨s, st1⟩
  rw [h] at hp
  cases s with
  | err e => exact ⟨hp.1, hp.2.1⟩
  | ok =>
    cases hs : ext.submitRes with
    | ok => exact ⟨hp.1, hp.2.1⟩
    | err e =>
      cases hst : st1.spilling_stream with
      | none =>
        simp only [hst]
        split <;> exact ⟨hp.1, hp.2.1⟩
      | some id =>
        simp only [hst]
        split <;> exact ⟨hp.1, hp.2.1⟩

/-- The operator-level `revoke_memory` never writes `eos` or the sorter. -/
theorem operator_revoke_memory_preserves (ext : Ext) (st : SinkState) :
    (operator_revoke_memory ext st).2.eos = st.eos ∧
    (operator_revoke_memory ext st).2.sorter = st.sorter := by
  unfold operator_revoke_memory
  split
  · exact ⟨rfl, rfl⟩
  · exact revoke_memory_preserves ext st

/-- Gate effects of the background job's `Defer` cleanup, as a function of
the `eos` flag it observes. -/
theorem spillJobCleanup_gates (st : SinkState) :
    (st.eos = true → (spillJobCleanup st).ready_to_read = true ∧
      (spillJobCleanup st).finish_blocked = false) ∧
    (st.eos = false → (spillJobCleanup st).dep_blocked = false) ∧
    (spillJobCleanup st).notified = true := by
  unfold spillJobCleanup sharedClear endSpill
  cases hst : st.spilling_stream <;> cases he : st.eos <;>
    cases hs : st.sink_status <;> simp [Status.isOk, he, hs, hst]

/-- A non-eos `sink` call on a clean status leaves the status clean and the
`eos` flag false. -/
theorem sink_false_state (b : Block) (ext : Ext) (st : SinkState)
    (hok : st.sink_status = .ok) :
    (sink b false ext st).2.sink_status = .ok ∧ (sink b false ext st).2.eos = false := by
  unfold sink sinkIngest update_spill_block_batch_row_count
  rw [hok]
  cases hs : ext.sorterSinkRes <;> simp [apply_ite]

/-- An eos `sink` call on a clean status leaves the `eos` flag true,
whatever the collaborators return. -/
theorem sink_true_eos (b : Block) (ext : Ext) (st : SinkState)
    (hok : st.sink_status = .ok) :
    (sink b true ext st).2.eos = true := by
  unfold sink
  rw [hok]
  cases hs : ext.sorterSinkRes with
  | err e => rfl
  | ok =>
    simp only [eq_self_iff_true, if_true]
    split_ifs with h1 h2
    · exact (operator_revoke_memory_preserves ext _).1
    · rfl
    · cases hp : ext.prepareForReadRes <;> simp only [hp] <;> rfl

/-- Folding non-eos `sink` calls keeps the status clean and `eos` false. -/
theorem runSink_false (calls : List (Block × Ext)) (st : SinkState)
    (hok : st.sink_status = .ok) (heos : st.eos = false) :
    (runSink (calls.map fun c => (c.1, false, c.2)) st).sink_status = .ok ∧
    (runSink (calls.map fun c => (c.1, false, c.2)) st).eos = false := by
  induction calls generalizing st with
  | nil => exact ⟨hok, heos⟩
  | cons c rest ih =>
    have h := sink_false_state c.1 c.2 st hok
    exact ih (sink c.1 false c.2 st).2 h.1 h.2

/-- Ingestion preserves `enable_spill` and `sink_status`, and appends one
`(rows, false)` entry to the delegate's received calls. -/
theorem sinkIngest_fields (b : Block) (l : Bool) (st : SinkState) :
    (sinkIngest b l st).enable_spill = st.enable_spill ∧
    (sinkIngest b l st).sink_status = st.sink_status ∧
    (sinkIngest b l st).sorter =
      { st.sorter with received := st.sorter.received ++ [(b.rows, false)] } := by
  unfold sinkIngest update_spill_block_batch_row_count
  refine ⟨?_, ?_, ?_⟩ <;> simp [apply_ite]

/-- `revocable_mem_size` depends only on `enable_spill` and `sink_status`. -/
theorem revocable_mem_size_congr (ext : Ext) (st1 st2 : SinkState)
    (h1 : st1.enable_spill = st2.enable_spill)
    (h2 : st1.sink_status = st2.sink_status) :
    revocable_mem_size ext st1 = revocable_mem_size ext st2 := by
  unfold revocable_mem_size
  rw [h1, h2]

/-! ## Claim theorems -/

/-- C1: if the background drain loop of a spill fails after writing zero or
more batches of the run (`prepare_for_spill` succeeded, the loop left a
latched failure), then the background job's `Defer` cleanup finalizes the
run with that failure status (`end_spill`) and clears the shared state, so
the shared run list afterwards contains no runs at all — neither the
failed run nor any previously completed run. -/
theorem C1_drain_failure_clears_all_runs (steps : List DrainRes) (cancelled : Bool)
    (st : SinkState) (id : Nat) (e : Nat)
    (hstream : st.spilling_stream = some id)
    (hfail : (spillJobBody .ok steps cancelled st).sink_status = .err e) :
    (spillJob .ok steps cancelled st).sorted_streams = [] ∧
    (id, Status.err e) ∈ (spillJob .ok steps cancelled st).end_spill_log := by
  obtain ⟨s, n, r, h⟩ := spillJobBody_shape .ok steps cancelled st
  rw [h] at hfail
  simp only at hfail
  subst hfail
  unfold spillJob
  rw [h]
  unfold spillJobCleanup endSpill sharedClear
  simp [hstream, Status.isOk, apply_ite]

/-- C1 witness: a concrete drain failure after one written batch clears
the run list and finalizes run 0 with the failing status. -/
theorem C1_drain_failure_witness :
    (spillJob .ok [.more, .readFail 7] false spillingState).sorted_streams = [] ∧
    (0, Status.err 7) ∈
      (spillJob .ok [.more, .readFail 7] false spillingState).end_spill_log :=
  C1_drain_failure_clears_all_runs [.more, .readFail 7] false spillingState 0 7 rfl rfl

/-- C2: code behavior at the claim's failing input. When
`register_spill_stream` fails inside `revoke_memory` (non-eos call, clean
status), the code returns the error but leaves `is_spilling` true — there
is no rollback on this path, contrary to the claim, which requires
`is_spilling` reset to false. -/
theorem C2_register_failure_keeps_spilling_flag :
    revoke_memory { registerRes := .err 3 } (initState true) =
      (.err 3, { initState true with is_spilling := true }) := rfl

/-- C3: counterexample. After `sink` with `is_last = true`, a further call
with `is_last = false` resets the eos flag back to false and its batch is
still forwarded to the Sorter as normal ingestion, so the flag is neither
sticky nor does ingestion stop. -/
theorem C3_eos_not_sticky_cex :
    ((sink ⟨0⟩ true {} (initState false)).2).eos = true ∧
    ((sink ⟨5⟩ false {} ((sink ⟨0⟩ true {} (initState false)).2)).2).eos = false ∧
    ((sink ⟨5⟩ false {} ((sink ⟨0⟩ true {} (initState false)).2)).2).sorter.received =
      [(0, false), (5, false)] :=
  ⟨rfl, rfl, rfl⟩

/-- C3 (amended): `sink` assigns its `is_last` argument to the eos flag on
every call that passes the status check, so the flag is sticky only under
the serialization contract that no call follows the `is_last = true` call:
for every serialized sequence whose earlier calls all pass
`is_last = false`, starting from a clean state, the flag is false through
the whole prefix and transitions to true exactly once, at the final
`is_last = true` call. -/
theorem C3_eos_once_under_contract (calls : List (Block × Ext)) (b : Block) (e : Ext)
    (st : SinkState) (hok : st.sink_status = .ok) (heos : st.eos = false) :
    (runSink (calls.map fun c => (c.1, false, c.2)) st).eos = false ∧
    (sink b true e (runSink (calls.map fun c => (c.1, false, c.2)) st)).2.eos = true := by
  obtain ⟨h1, h2⟩ := runSink_false calls st hok heos
  exact ⟨h2, sink_true_eos b e _ h1⟩

/-- C3 witness: the amended statement at a concrete one-call prefix
followed by the final eos call. -/
theorem C3_eos_once_witness :
    (runSink ([((⟨3⟩ : Block), ({} : Ext))].map fun c => (c.1, false, c.2))
      (initState false)).eos = false ∧
    (sink ⟨0⟩ true {} (runSink ([((⟨3⟩ : Block), ({} : Ext))].map
      fun c => (c.1, false, c.2)) (initState false))).2.eos = true :=
  C3_eos_once_under_contract [(⟨3⟩, {})] ⟨0⟩ {} (initState false) rfl rfl

/-- C4: for a non-eos `revoke_memory` the dependency gate is blocked in the
synchronous setup, i.e. before the closure is submitted, and the background
job's cleanup re-arms it on completion; for a spill whose `eos` flag is set
the cleanup instead marks the read side ready and releases the finish
gate; and in every case the cleanup notifies the waiter on the condition
variable. -/
theorem C4_gate_protocol (ext : Ext) (prepRes : Status) (steps : List DrainRes)
    (cancelled : Bool) (st : SinkState) :
    (st.eos = false → ∀ s1 : SinkState, revoke_setup ext st = (.ok, s1) →
      s1.dep_blocked = true) ∧
    (st.eos = false → (spillJob prepRes steps cancelled st).dep_blocked = false) ∧
    (st.eos = true → (spillJob prepRes steps cancelled st).ready_to_read = true ∧
      (spillJob prepRes steps cancelled st).finish_blocked = false) ∧
    (spillJob prepRes steps cancelled st).notified = true := by
  obtain ⟨s, n, r, hb⟩ := spillJobBody_shape prepRes steps cancelled st
  have hg := spillJobCleanup_gates (spillJobBody prepRes steps cancelled st)
  have he : (spillJobBody prepRes steps cancelled st).eos = st.eos := by rw [hb]
  refine ⟨?_, ?_, ?_, ?_⟩
  · intro heos s1 h
    unfold revoke_setup register_spill_stream at h
    cases hss : st.sink_status <;> cases hr : ext.registerRes <;>
      cases hp2 : ext.prepareSpillRes <;>
      simp [hss, hr, hp2, heos, Prod.mk.injEq] at h <;>
      subst h <;> rfl
  · intro heos
    exact hg.2.1 (he.trans heos)
  · intro heos
    exact hg.1 (he.trans heos)
  · exact hg.2.2

/-- C4 witness: at the concrete in-flight spill state (non-eos), the
background job's cleanup re-arms the dependency gate and notifies. -/
theorem C4_gate_witness :
    (spillJob .ok [.last] false spillingState).dep_blocked = false ∧
    (spillJob .ok [.last] false spillingState).notified = true :=
  ⟨(C4_gate_protocol {} .ok [.last] false spillingState).2.1 rfl,
   (C4_gate_protocol {} .ok [.last] false spillingState).2.2.2⟩

/-- C5: `revocable_mem_size` returns 0 whenever spill is disabled, the
sentinel `UINT64_MAX` whenever the shared status already carries a
failure, and otherwise the Sorter's estimate of reclaimable memory. -/
theorem C5_revocable_mem_size_cases (ext : Ext) (st : SinkState) :
    (st.enable_spill = false → revocable_mem_size ext st = 0) ∧
    (st.enable_spill = true → ∀ e, st.sink_status = .err e →
      revocable_mem_size ext st = UINT64_MAX) ∧
    (st.enable_spill = true → st.sink_status = .ok →
      revocable_mem_size ext st = ext.revocableSize) :=
  ⟨fun h => by simp [revocable_mem_size, h],
   fun h e he => by simp [revocable_mem_size, h, he, Status.isOk],
   fun h ho => by simp [revocable_mem_size, h, ho, Status.isOk]⟩

/-- C5 witness: on a latched failure with spill enabled the sentinel is
returned regardless of the Sorter's actual estimate. -/
theorem C5_revocable_witness :
    revocable_mem_size { revocableSize := 42 } failedState = UINT64_MAX :=
  (C5_revocable_mem_size_cases { revocableSize := 42 } failedState).2.1 rfl 5 rfl

/-- C6: when the shared status already carries a failure, `sink` returns
that failure immediately with the state untouched (no rows-counter update,
no batch-granularity update, no forwarding to the Sorter), and every
subsequent call short-circuits on the latched failure in the same way. -/
theorem C6_latched_failure_short_circuits (b : Block) (l : Bool) (ext : Ext)
    (st : SinkState) (e : Nat) (h : st.sink_status = .err e) :
    sink b l ext st = (.err e, st) ∧
    ∀ b2 l2 ext2, sink b2 l2 ext2 (sink b l ext st).2 = (.err e, st) := by
  have h1 : sink b l ext st = (.err e, st) := by unfold sink; rw [h]
  refine ⟨h1, fun b2 l2 ext2 => ?_⟩
  rw [h1]
  show sink b2 l2 ext2 st = (.err e, st)
  unfold sink; rw [h]

/-- C6 witness: a concrete short-circuited call on a latched failure. -/
theorem C6_latched_failure_witness :
    sink ⟨7⟩ false {} failedState = (.err 5, failedState) :=
  (C6_latched_failure_short_circuits ⟨7⟩ false {} failedState 5 rfl).1

/-- C7: counterexample. After a synchronous submission failure the run
registered by the failed attempt is still in the shared run list
(`sorted_streams` holds run 0), so it is false that no run from this
attempt remains owned by the shared run list. -/
theorem C7_submit_failure_run_remains_cex :
    (revoke_memory { submitRes := .err 9 } (initState true)).1 = .err 9 ∧
    (revoke_memory { submitRes := .err 9 } (initState true)).2.sorted_streams = [0] :=
  ⟨rfl, rfl⟩

/-- C7 (amended): if the synchronous submission of the spill closure
fails, `revoke_memory` restores `is_spilling` to false, finalizes the run
with the failure status via `end_spill`, re-arms the dependency gate when
the call is not end-of-stream, and returns the submission failure — but
the run registered by this attempt remains appended to the shared run
list (only the local in-flight handle is finalized, not removed). -/
theorem C7_submit_failure_rollback (ext : Ext) (st : SinkState) (e : Nat)
    (hok : st.sink_status = .ok) (hreg : ext.registerRes = .ok)
    (hprep : ext.prepareSpillRes = .ok) (hsub : ext.submitRes = .err e) :
    (revoke_memory ext st).1 = .err e ∧
    (revoke_memory ext st).2.is_spilling = false ∧
    (revoke_memory ext st).2.sorted_streams = st.sorted_streams ++ [st.next_stream_id] ∧
    (st.next_stream_id, Status.err e) ∈ (revoke_memory ext st).2.end_spill_log ∧
    (st.eos = false → (revoke_memory ext st).2.dep_blocked = false) := by
  by_cases he2 : st.eos = false <;>
    unfold revoke_memory revoke_setup register_spill_stream endSpill <;>
    simp [hok, hreg, hprep, hsub, he2]

/-- C7 witness: the amended rollback at a concrete non-eos state. -/
theorem C7_submit_failure_witness :
    (revoke_memory { submitRes := .err 9 } (initState true)).2.is_spilling = false ∧
    (0, Status.err 9) ∈
      (revoke_memory { submitRes := .err 9 } (initState true)).2.end_spill_log :=
  ⟨(C7_submit_failure_rollback { submitRes := .err 9 } (initState true) 9
      rfl rfl rfl rfl).2.1,
   (C7_submit_failure_rollback { submitRes := .err 9 } (initState true) 9
      rfl rfl rfl rfl).2.2.2.1⟩

/-- C8: dispatch of the final (`is_last = true`) `sink` call after
successful ingestion: with spill enabled and revocable memory non-zero it
triggers `revoke_memory`; with spill enabled and revocable memory zero it
marks the read side ready immediately; with spill disabled it first
finalizes the in-memory sort order (`prepare_for_read`) and then marks
the read side ready. -/
theorem C8_eos_dispatch (b : Block) (ext : Ext) (st : SinkState)
    (hok : st.sink_status = .ok) (hs : ext.sorterSinkRes = .ok) :
    (st.enable_spill = true → 0 < revocable_mem_size ext st →
      sink b true ext st =
        operator_revoke_memory ext
          { sinkIngest b true st with mem_consumption := ext.dataSize }) ∧
    (st.enable_spill = true → revocable_mem_size ext st = 0 →
      sink b true ext st =
        (.ok, { sinkIngest b true st with
                mem_consumption := ext.dataSize
                ready_to_read := true })) ∧
    (st.enable_spill = false →
      (sink b true ext st).2.sorter.prepared_for_read = true ∧
      (ext.prepareForReadRes = .ok →
        (sink b true ext st).1 = .ok ∧ (sink b true ext st).2.ready_to_read = true)) := by
  have hif := sinkIngest_fields b true st
  have hrv : revocable_mem_size ext
      { sinkIngest b true st with mem_consumption := ext.dataSize } =
      revocable_mem_size ext st :=
    revocable_mem_size_congr ext _ _ hif.1 hif.2.1
  refine ⟨?_, ?_, ?_⟩
  · intro hen hpos
    unfold sink
    simp only [hok, hs]
    rw [if_pos trivial, if_pos (hif.1.trans hen), if_pos (lt_of_lt_of_eq hpos hrv.symm)]
  · intro hen hzero
    unfold sink
    simp only [hok, hs]
    rw [if_pos trivial, if_pos (hif.1.trans hen),
      if_neg (by rw [hrv, hzero]; exact lt_irrefl 0)]
  · intro hdis
    have hne : ¬ (sinkIngest b true st).enable_spill = true := by
      rw [hif.1, hdis]; exact Bool.false_ne_true
    constructor
    · unfold sink
      simp only [hok, hs]
      rw [if_pos trivial, if_neg hne]
      cases hp : ext.prepareForReadRes <;> simp only [hp]
    · intro hprd
      unfold sink
      simp only [hok, hs]
      rw [if_pos trivial, if_neg hne]
      simp only [hprd]
      exact ⟨trivial, trivial⟩

/-- C8 witness: the revoke branch at a concrete eos call with spill
enabled and non-zero revocable memory. -/
theorem C8_eos_dispatch_witness :
    sink ⟨5⟩ true { revocableSize := 10 } (initState true) =
      operator_revoke_memory { revocableSize := 10 }
        { sinkIngest ⟨5⟩ true (initState true) with mem_consumption := 0 } :=
  (C8_eos_dispatch ⟨5⟩ { revocableSize := 10 } (initState true) rfl rfl).1 rfl (by decide)

/-- C9: every `sink` call that passes the status check forwards the batch
to the in-memory sort delegate with the delegate's eos flag hard-coded to
false — including the final `is_last = true` call; the delegate learns the
stream ended only indirectly, via `prepare_for_read` when spill is
disabled, or via `prepare_for_spill` inside the background spill job. -/
theorem C9_delegate_eos_always_false (b : Block) (l : Bool) (ext : Ext)
    (st : SinkState) (hok : st.sink_status = .ok) (hs : ext.sorterSinkRes = .ok) :
    (sink b l ext st).2.sorter.received = st.sorter.received ++ [(b.rows, false)] ∧
    (sink b l ext st).2.sorter.prepared_for_read =
      (st.sorter.prepared_for_read || (l && !st.enable_spill)) ∧
    ∀ prepRes steps cancelled st0,
      (spillJobBody prepRes steps cancelled st0).sorter.prepared_for_spill = true := by
  have hif := sinkIngest_fields b l st
  have hsorter : (sink b l ext st).2.sorter =
      { st.sorter with
        received := st.sorter.received ++ [(b.rows, false)]
        prepared_for_read :=
          st.sorter.prepared_for_read || (l && !st.enable_spill) } := by
    unfold sink
    simp only [hok, hs]
    cases l with
    | false => simp [hif.2.2]
    | true =>
      simp only [eq_self_iff_true, if_true]
      split_ifs with h1 h2
      · rw [(operator_revoke_memory_preserves ext _).2]
        have hen : st.enable_spill = true := hif.1.symm.trans h1
        simp [hif.2.2, hen]
      · have hen : st.enable_spill = true := hif.1.symm.trans h1
        simp [hif.2.2, hen]
      · have hen : st.enable_spill = false := by
          rw [hif.1] at h1
          exact Bool.not_eq_true _ ▸ h1
        cases hp : ext.prepareForReadRes <;> simp [hp, hif.2.2, hen]
  refine ⟨?_, ?_, fun prepRes steps cancelled st0 => ?_⟩
  · rw [hsorter]
  · rw [hsorter]
  · obtain ⟨s, n, r, h⟩ := spillJobBody_shape prepRes steps cancelled st0
    rw [h]

/-- C9 witness: a concrete final call still passes `false` as the
delegate's eos flag. -/
theorem C9_delegate_witness :
    (sink ⟨5⟩ true {} (initState false)).2.sorter.received = [(5, false)] :=
  (C9_delegate_eos_always_false ⟨5⟩ true {} (initState false) rfl rfl).1

/-- C10: if registration of the spill stream or its `prepare_spill` fails
inside `revoke_memory`, the shared sorted-runs list is left unchanged: the
run handle is appended only after both registration and prepare succeeded,
so a setup failure never makes a run from the failed attempt visible in
shared state. -/
theorem C10_setup_failure_streams_unchanged (ext : Ext) (st : SinkState) (e : Nat)
    (hok : st.sink_status = .ok)
    (hfail : ext.registerRes = .err e ∨
      (ext.registerRes = .ok ∧ ext.prepareSpillRes = .err e)) :
    (revoke_memory ext st).1 = .err e ∧
    (revoke_memory ext st).2.sorted_streams = st.sorted_streams := by
  rcases hfail with h | ⟨h1, h2⟩
  · unfold revoke_memory revoke_setup
    simp [hok, h]
  · unfold revoke_memory revoke_setup register_spill_stream
    simp [hok, h1, h2]

/-- C10 witness: a concrete `prepare_spill` failure leaves the run list
empty. -/
theorem C10_setup_failure_witness :
    (revoke_memory { prepareSpillRes := .err 4 } (initState true)).1 = .err 4 ∧
    (revoke_memory { prepareSpillRes := .err 4 } (initState true)).2.sorted_streams = [] :=
  C10_setup_failure_streams_unchanged { prepareSpillRes := .err 4 } (initState true) 4
    rfl (Or.inr ⟨rfl, rfl⟩)

end SpillSortSink
